import Mathlib

/-!
# Verification of the survey2earn-backend response/reward engine

Shallow embedding of the Go sources of `survey2earn-backend`:

* `internal/models/reward.go` (RewardPool, RewardTransaction, Response,
  Answer, AnswerValue, ValidateAnswer, ProcessReward, CanProcessReward, ...)
* `internal/models` survey file (Survey, Question, IsActive, GetQuestionByID)
* `internal/services/response_service.go` (StartSurvey, SubmitAnswers,
  CompleteSurvey, UpdateAnswer, calculateQualityScore, processRewards,
  generateNFTCertificate)

Modelling conventions:

* Go `float64` is modelled by `GoFloat`: an exact rational (`ℚ`) extended
  with the IEEE special values NaN, +Inf and -Inf.  Arithmetic on finite
  values is exact (binary rounding of `float64` is not modelled; no claim
  in scope depends on rounding), while division by zero, special-value
  propagation and the all-false NaN comparisons follow IEEE 754 exactly as
  Go implements them, because the quality-score code divides by zero when
  a response has no answers or a survey has no questions.
* Go `uint` ids are modelled by `Nat`; Go `int` counters by `Int`.
* `time.Time` values are modelled by their Unix timestamp (`Int`); the
  textual rendering used by `extractAnswerText` for date answers is
  claim-irrelevant and is rendered as the decimal timestamp.
* Of the repository layer, the user and survey repository
  implementations are among the sources (concatenated into the dto/auth
  file after the interfaces) and are embedded from that code — notably
  `userRepository.UpdateBalance`, which discards its `xp` argument and
  writes only `total_earned`, and `surveyRepository.UpdateStatistics`,
  which is a mock returning nil.  The response and reward repository
  implementations exist only as interfaces; those calls are modelled from
  the specification and marked `Modelled from the spec:` in their
  docstrings.
-/

/-- Go `float64`, modelled as an exact rational extended with the IEEE
special values.  Finite arithmetic is exact; special values behave as in
IEEE 754 (and hence as in Go). -/
inductive GoFloat where
  | nan : GoFloat
  | pinf : GoFloat
  | ninf : GoFloat
  | fin : ℚ → GoFloat
deriving DecidableEq, Repr

namespace GoFloat

/-- IEEE negation. -/
def neg : GoFloat → GoFloat
  | .nan => .nan
  | .pinf => .ninf
  | .ninf => .pinf
  | .fin q => .fin (-q)

/-- IEEE addition (exact on finite values). -/
def add : GoFloat → GoFloat → GoFloat
  | .nan, _ => .nan
  | _, .nan => .nan
  | .pinf, .ninf => .nan
  | .ninf, .pinf => .nan
  | .pinf, _ => .pinf
  | _, .pinf => .pinf
  | .ninf, _ => .ninf
  | _, .ninf => .ninf
  | .fin a, .fin b => .fin (a + b)

/-- IEEE subtraction, `a - b = a + (-b)`. -/
def sub (a b : GoFloat) : GoFloat := a.add b.neg

/-- IEEE multiplication (exact on finite values). -/
def mul : GoFloat → GoFloat → GoFloat
  | .nan, _ => .nan
  | _, .nan => .nan
  | .pinf, .pinf => .pinf
  | .pinf, .ninf => .ninf
  | .ninf, .pinf => .ninf
  | .ninf, .ninf => .pinf
  | .pinf, .fin q => if q = 0 then .nan else if 0 < q then .pinf else .ninf
  | .ninf, .fin q => if q = 0 then .nan else if 0 < q then .ninf else .pinf
  | .fin q, .pinf => if q = 0 then .nan else if 0 < q then .pinf else .ninf
  | .fin q, .ninf => if q = 0 then .nan else if 0 < q then .ninf else .pinf
  | .fin a, .fin b => .fin (a * b)

/-- IEEE division; Go has a single (positive) zero in this model, so
`x / 0` is `NaN` when `x = 0`, `+Inf` when `x > 0` and `-Inf` when
`x < 0`. -/
def div : GoFloat → GoFloat → GoFloat
  | .nan, _ => .nan
  | _, .nan => .nan
  | .pinf, .pinf => .nan
  | .pinf, .ninf => .nan
  | .ninf, .pinf => .nan
  | .ninf, .ninf => .nan
  | .pinf, .fin q => if 0 ≤ q then .pinf else .ninf
  | .ninf, .fin q => if 0 ≤ q then .ninf else .pinf
  | .fin _, .pinf => .fin 0
  | .fin _, .ninf => .fin 0
  | .fin a, .fin b =>
      if b = 0 then (if a = 0 then .nan else if 0 < a then .pinf else .ninf)
      else .fin (a / b)

/-- IEEE strict less-than: any comparison with NaN is `false`. -/
def blt : GoFloat → GoFloat → Bool
  | .nan, _ => false
  | _, .nan => false
  | .ninf, .ninf => false
  | .ninf, _ => true
  | _, .ninf => false
  | .pinf, _ => false
  | .fin _, .pinf => true
  | .fin a, .fin b => decide (a < b)

/-- IEEE less-or-equal: any comparison with NaN is `false`. -/
def ble : GoFloat → GoFloat → Bool
  | .nan, _ => false
  | _, .nan => false
  | .ninf, _ => true
  | _, .ninf => false
  | _, .pinf => true
  | .pinf, _ => false
  | .fin a, .fin b => decide (a ≤ b)

/-- Go integer conversion `int(x)`: truncation toward zero on finite
values.  Go leaves the conversion of NaN/±Inf implementation-defined; it
is rendered as 0 here and is unreachable under the hypotheses of every claim. -/
def toGoInt : GoFloat → Int
  | .fin q => if 0 ≤ q then q.floor else q.ceil
  | _ => 0

/-- `x` is finite and lies in the closed interval `[lo, hi]`. -/
def isFinBetween (x : GoFloat) (lo hi : ℚ) : Bool :=
  match x with
  | .fin q => decide (lo ≤ q) && decide (q ≤ hi)
  | _ => false

end GoFloat

/-! ## Data model (`internal/models`) -/

/-- `models.SurveyStatus` (survey model file). -/
inductive SurveyStatus where
  | draft | published | paused | completed | cancelled
deriving DecidableEq, Repr

/-- `models.QuestionType` (survey model file). -/
inductive QuestionType where
  | multipleChoice | singleChoice | text | textArea | rating | yesNo | scale | date | number
deriving DecidableEq, Repr

/-- `models.Question` (survey model file).  GORM/relationship fields and the
purely descriptive columns (`Text`, `Description`, `Options`, `Order`,
`ShowIf`) carry no behaviour used by any claim and are omitted; the fields
read by `ValidateAnswer` and the services are kept. -/
structure Question where
  id : Nat
  type : QuestionType
  required : Bool
  minLength : Option Int
  maxLength : Option Int
  minValue : Option GoFloat
  maxValue : Option GoFloat
deriving DecidableEq, Repr

/-- `models.Survey` (survey model file); statistics and relationship fields
not read by the embedded services are omitted. -/
structure Survey where
  id : Nat
  creatorID : Nat
  status : SurveyStatus
  maxResponses : Int
  minResponses : Int
  rewardPerResponse : GoFloat
  startDate : Option Int
  endDate : Option Int
  estimatedDuration : Int
  requireLogin : Bool
  allowMultiple : Bool
  responseCount : Int
  questions : List Question
deriving DecidableEq, Repr

/-- `Survey.IsActive` (survey model file, lines 155-176); `now` is the value
of `time.Now()` as a Unix timestamp. -/
def Survey.isActive (s : Survey) (now : Int) : Bool :=
  if s.status ≠ SurveyStatus.published then false
  else if (match s.startDate with | some sd => decide (now < sd) | none => false) then false
  else if (match s.endDate with | some ed => decide (ed < now) | none => false) then false
  else if s.responseCount ≥ s.maxResponses then false
  else true

/-- `Survey.GetQuestionByID` (survey model file): first question with the
given id, `none` for the "question not found" error. -/
def Survey.getQuestionByID (s : Survey) (questionID : Nat) : Option Question :=
  s.questions.find? (fun q => q.id == questionID)

/-- The dynamic value stored in the `Content interface{}` field of an
answer value (the JSON payload holds a string, a number, a boolean or
nothing). -/
inductive GoValue where
  | null
  | str : String → GoValue
  | num : GoFloat → GoValue
  | bool : Bool → GoValue
deriving DecidableEq, Repr

/-- `models.AnswerValue` (response model file).  The same shape is used for
`dto.AnswerValue`, which has identical fields and is copied field-by-field
by the services. -/
structure AnswerValue where
  type : String
  content : GoValue
  options : List String
  rating : Option Int
  scale : Option Int
  date : Option Int
deriving DecidableEq, Repr

/-- `models.Answer` (response model file); GORM base/relationship fields
omitted. -/
structure Answer where
  responseID : Nat
  questionID : Nat
  answerText : String
  answerValue : AnswerValue
  timeSpent : Int
  isSkipped : Bool
deriving DecidableEq, Repr

/-- `Answer.ValidateAnswer` (reward/response model file, lines 339-365).
Returns `some msg` for `errors.New(msg)` and `none` for `nil`.  Note that
for rating and scale questions only the `Rating` field of the answer value
is range-checked; the `Scale` field is never consulted. -/
def Answer.validateAnswer (a : Answer) (question : Question) : Option String :=
  if question.required && (a.isSkipped || a.answerText == "") then
    some "answer is required"
  else
    match question.type with
    | .text | .textArea =>
        if (match question.minLength with
            | some m => decide ((a.answerText.length : Int) < m)
            | none => false) then some "answer too short"
        else if (match question.maxLength with
            | some m => decide ((a.answerText.length : Int) > m)
            | none => false) then some "answer too long"
        else none
    | .rating | .scale =>
        match a.answerValue.rating with
        | some r =>
            if (match question.minValue with
                | some mv => GoFloat.blt (.fin (r : ℚ)) mv
                | none => false) then some "rating below minimum"
            else if (match question.maxValue with
                | some mv => GoFloat.blt mv (.fin (r : ℚ))
                | none => false) then some "rating above maximum"
            else none
        | none => none
    | _ => none

/-- `models.ResponseStatus` (response model file). -/
inductive ResponseStatus where
  | started | completed | abandoned
deriving DecidableEq, Repr

/-- `models.Response` (response model file); metadata strings and
relationship fields not read by the embedded services are omitted. -/
structure Response where
  id : Nat
  surveyID : Nat
  userID : Nat
  status : ResponseStatus
  startedAt : Int
  completedAt : Option Int
  duration : Int
  qualityScore : GoFloat
  isValid : Bool
  answers : List Answer
deriving DecidableEq, Repr

/-- `Response.CalculateDuration` (response model file). -/
def Response.calculateDuration (r : Response) (now : Int) : Int :=
  match r.completedAt with
  | some c => c - r.startedAt
  | none => now - r.startedAt

/-- `Response.MarkAsCompleted` (response model file): sets the status and
the completion stamp, then recomputes the duration (which now reads the
just-set completion stamp). -/
def Response.markAsCompleted (r : Response) (now : Int) : Response :=
  let r := { r with status := ResponseStatus.completed, completedAt := some now }
  { r with duration := r.calculateDuration now }

/-- `models.RewardPool` (reward.go, lines 29-48); relationship fields
omitted. -/
structure RewardPool where
  id : Nat
  surveyID : Nat
  totalAmount : GoFloat
  rewardPerResponse : GoFloat
  maxResponses : Int
  currentResponses : Int
  paidOut : GoFloat
  remainingAmount : GoFloat
  isActive : Bool
  contractAddress : Option String
  txHash : Option String
  blockNumber : Option Int
deriving DecidableEq, Repr

/-- `RewardPool.IsAvailable` (reward.go, lines 103-105). -/
def RewardPool.isAvailable (rp : RewardPool) : Bool :=
  rp.isActive && GoFloat.blt (.fin 0) rp.remainingAmount
    && decide (rp.currentResponses < rp.maxResponses)

/-- `RewardPool.CanProcessReward` (reward.go, lines 107-109). -/
def RewardPool.canProcessReward (rp : RewardPool) : Bool :=
  rp.isAvailable && GoFloat.ble rp.rewardPerResponse rp.remainingAmount

/-- `RewardPool.ProcessReward` (reward.go, lines 111-125).  Go mutates the
receiver in place and returns an error; this embedding returns the pool
after the call together with the optional error message (on the error
branch the pool is returned unchanged, as the Go method leaves the
receiver untouched). -/
def RewardPool.processReward (rp : RewardPool) : RewardPool × Option String :=
  if !rp.canProcessReward then
    (rp, some "cannot process reward: insufficient funds or pool inactive")
  else
    let rp := { rp with
      currentResponses := rp.currentResponses + 1,
      paidOut := rp.paidOut.add rp.rewardPerResponse,
      remainingAmount := rp.remainingAmount.sub rp.rewardPerResponse }
    let rp :=
      if decide (rp.currentResponses ≥ rp.maxResponses)
          || GoFloat.blt rp.remainingAmount rp.rewardPerResponse then
        { rp with isActive := false }
      else rp
    (rp, none)

/-- `models.TransactionType` (reward.go). -/
inductive TransactionType where
  | reward | withdrawal | refund | fee
deriving DecidableEq, Repr

/-- `models.TransactionStatus` (reward.go). -/
inductive TransactionStatus where
  | pending | processing | completed | failed | cancelled
deriving DecidableEq, Repr

/-- `models.RewardTransaction` (reward.go, lines 51-75); blockchain and
retry bookkeeping fields not touched by the embedded services are
omitted. -/
structure RewardTransaction where
  userID : Nat
  surveyID : Nat
  responseID : Option Nat
  poolID : Option Nat
  type : TransactionType
  amount : GoFloat
  status : TransactionStatus
deriving DecidableEq, Repr


/-! ## DTOs (`internal/dto/response.go`) -/

/-- `dto.SubmitAnswerRequest`; the nested `dto.AnswerValue` is represented
by the shared `AnswerValue` structure (identical fields, copied
field-by-field by the service). -/
structure SubmitAnswerRequest where
  questionID : Nat
  answer : AnswerValue
  timeSpent : Int
  isSkipped : Bool
deriving DecidableEq, Repr

/-- `dto.CompleteSurveyRequest`. -/
structure CompleteSurveyRequest where
  responseID : Nat
  answers : List SubmitAnswerRequest
  duration : Int
deriving DecidableEq, Repr

/-- `dto.UpdateAnswerRequest`. -/
structure UpdateAnswerRequest where
  answer : AnswerValue
  timeSpent : Int
  isSkipped : Bool
deriving DecidableEq, Repr

/-- `dto.StartSurveyRequest`. -/
structure StartSurveyRequest where
  surveyID : Nat
  timezone : String
  language : String
  ipAddress : String
  userAgent : String
deriving DecidableEq, Repr

/-- `dto.CompletionResponse` (the fields produced by `CompleteSurvey`;
the fixed success message and the always-`nil` transaction hash are
omitted). -/
structure CompletionResponse where
  responseID : Nat
  status : ResponseStatus
  completedAt : Int
  duration : Int
  rewardEarned : GoFloat
  xpEarned : Int
  nftCertificate : String
deriving DecidableEq, Repr

/-! ## Service helpers (`internal/services/response_service.go`) -/

/-- Rendering of `fmt.Sprintf("%.2f", q)` for a finite value: sign,
integer part and two fractional digits.  Ties are rounded away from zero
here while Go rounds ties to even; the difference (exact half-cent values
only) is immaterial to every claim, which depend on this string only
through emptiness and length. -/
def goFmtFloat2 (x : GoFloat) : String :=
  match x with
  | .fin q =>
      let neg := decide (q < 0)
      let c : Int := (|q| * 100 + 1/2 : ℚ).floor
      let whole := c / 100
      let cents := c % 100
      let centsStr := if cents < 10 then "0" ++ toString cents else toString cents
      (if neg then "-" else "") ++ toString whole ++ "." ++ centsStr
  | .pinf => "+Inf"
  | .ninf => "-Inf"
  | .nan => "NaN"

/-- `responseService.extractAnswerText` (response_service.go, lines
403-438): switches on the `Type` string of the answer value and renders the
corresponding field, returning `""` when the payload does not match. -/
def extractAnswerText (answerValue : AnswerValue) : String :=
  match answerValue.type with
  | "text" =>
      (match answerValue.content with | .str s => s | _ => "")
  | "number" =>
      (match answerValue.content with | .num x => goFmtFloat2 x | _ => "")
  | "boolean" =>
      (match answerValue.content with
       | .bool b => if b then "true" else "false"
       | _ => "")
  | "array" =>
      if answerValue.options.length > 0 then
        String.intercalate ", " answerValue.options
      else ""
  | "rating" =>
      (match answerValue.rating with | some r => toString r | none => "")
  | "scale" =>
      (match answerValue.scale with | some sc => toString sc | none => "")
  | "date" =>
      (match answerValue.date with | some d => toString d | none => "")
  | _ => ""

/-- `responseService.calculateQualityScore` (response_service.go, lines
440-484).  Faithful to the Go float arithmetic: when the survey has no
questions the completion-rate division is `0/0 = NaN` and the final
clamps (`score < 0`, `score > 5`) are both false for NaN, so NaN is
returned; when the response has no answers the pacing division divides by
zero (there is no guard in the code) and the resulting Inf/NaN fails the
`< 5` comparison, so the pacing penalty is simply not applied. -/
def calculateQualityScore (response : Response) (survey : Survey) : GoFloat :=
  let score : GoFloat := .fin 5
  let questionsTotal := survey.questions.length
  let questionsAnswered := response.answers.length
  let completionRate := GoFloat.div (.fin (questionsAnswered : ℚ)) (.fin (questionsTotal : ℚ))
  let score := score.mul completionRate
  let avgTimePerQuestion := GoFloat.div (.fin (response.duration : ℚ)) (.fin (questionsAnswered : ℚ))
  let score := if avgTimePerQuestion.blt (.fin 5) then score.mul (.fin (7/10)) else score
  let skippedRequired : Nat :=
    (response.answers.filter (fun a =>
      a.isSkipped && survey.questions.any (fun q => q.id == a.questionID && q.required))).length
  let score := if 0 < skippedRequired then
      score.mul (.fin (1 - (skippedRequired : ℚ) * (1/10)))
    else score
  let score := if score.blt (.fin 0) then .fin 0 else score
  let score := if GoFloat.blt (.fin 5) score then .fin 5 else score
  score

/-- `responseService.generateNFTCertificate` (response_service.go, lines
530-534). -/
def generateNFTCertificate (response : Response) (survey : Survey) : String :=
  "NFT-CERT-" ++ toString survey.id ++ "-" ++ toString response.userID ++ "-" ++ toString response.id

/-- One write performed by `userRepository.UpdateBalance` (repository
sources concatenated into the dto/auth file, user_repository section,
lines 596-603): the mock implementation adds `earned` to the
`total_earned` column of the user row — and nothing else, so a write
carries only the earned delta.  The `xp` argument of the call does not
appear in the update map, and the User model has no XP column at all. -/
structure BalanceCredit where
  userID : Nat
  totalEarnedDelta : GoFloat
deriving DecidableEq, Repr

/-- `userRepository.UpdateBalance` (dto/auth file, user_repository
section, lines 596-603): appends the single `total_earned += earned`
write of the gorm update; the `xp` parameter is accepted but discarded —
it is absent from the update map, so no XP is ever credited. -/
def updateBalance (credits : List BalanceCredit) (userID : Nat)
    (earned xp : GoFloat) : List BalanceCredit :=
  credits ++ [{ userID := userID, totalEarnedDelta := earned }]

/-- The persistent state visible to the response service: the Response
aggregate the claims concern, the survey catalog entry, the matching
reward pool, and the recorded reward transactions and balance credits.
Modelled from the spec: the persistence layer is "simple create/read/
update operations with no business logic of its own" (§1), so it is a
record of the stored aggregates. -/
structure ServiceState where
  response : Response
  survey : Survey
  pool : RewardPool
  transactions : List RewardTransaction
  credits : List BalanceCredit
deriving DecidableEq, Repr

/-- Modelled from the spec: `responseRepo.GetByID` — lookup of the stored
Response aggregate by id (§6 persistence CRUD); `none` is the gorm
record-not-found error. -/
def getResponseByID (st : ServiceState) (responseID : Nat) : Option Response :=
  if st.response.id == responseID then some st.response else none

/-- `surveyRepository.GetByID` (dto/auth file, survey_repository
section, lines 636-640): loads the survey with its questions preloaded;
rendered as lookup in the single-survey state. -/
def getSurveyByID (st : ServiceState) (surveyID : Nat) : Option Survey :=
  if st.survey.id == surveyID then some st.survey else none

/-- Modelled from the spec: `rewardRepo.GetPoolBySurveyID` — the unique
pool of a survey (§3: one RewardPool per published survey). -/
def getPoolBySurveyID (st : ServiceState) (surveyID : Nat) : Option RewardPool :=
  if st.pool.surveyID == surveyID then some st.pool else none

/-- Modelled from the spec: `responseRepo.UpsertAnswer` — at most one live
answer per (response id, question id); resubmission replaces the prior
value, otherwise the answer is appended (§3 Answer, §9). -/
def upsertAnswer (answers : List Answer) (a : Answer) : List Answer :=
  if answers.any (fun b => b.responseID == a.responseID && b.questionID == a.questionID) then
    answers.map (fun b =>
      if b.responseID == a.responseID && b.questionID == a.questionID then a else b)
  else answers ++ [a]

/-- Modelled from the spec: `responseRepo.Update` persists the Response
record and its own columns; Answer rows are owned by the upsert path and are
not touched by updating the Response row. -/
def updateResponse (st : ServiceState) (r : Response) : ServiceState :=
  { st with response := { r with answers := st.response.answers } }

/-- The `models.Answer` value built for one submitted answer inside the
`SubmitAnswers` loop (response_service.go, lines 141-159): the DTO answer
value is copied field-by-field and the answer text is extracted. -/
def mkAnswer (responseID : Nat) (answerReq : SubmitAnswerRequest) : Answer :=
  { responseID := responseID,
    questionID := answerReq.questionID,
    answerText := extractAnswerText answerReq.answer,
    answerValue := answerReq.answer,
    timeSpent := answerReq.timeSpent,
    isSkipped := answerReq.isSkipped }

/-! ## Service operations (`internal/services/response_service.go`) -/

/-- `responseService.StartSurvey` (response_service.go, lines 44-108).
`hasResponded` is the answer of `responseRepo.HasUserResponded`, `now` the
value of `time.Now()`.  On success the created Response (with the repo-
assigned id abstracted as `newID`) and the advisory time-left value are
returned. -/
def startSurvey (survey : Survey) (userID surveyID : Nat) (hasResponded : Bool)
    (req : StartSurveyRequest) (now : Int) (newID : Nat) :
    Except String (Response × Option Int) :=
  if !survey.isActive now then .error "survey is not active"
  else if survey.requireLogin && userID == 0 then .error "login required to participate"
  else if !survey.allowMultiple && hasResponded then
    .error "user has already responded to this survey"
  else if survey.responseCount ≥ survey.maxResponses then
    .error "survey has reached maximum participants"
  else
    let response : Response :=
      { id := newID, surveyID := surveyID, userID := userID,
        status := ResponseStatus.started, startedAt := now,
        completedAt := none, duration := 0, qualityScore := .fin 0,
        isValid := true, answers := [] }
    let timeLeft := if survey.estimatedDuration > 0 then some (survey.estimatedDuration * 60) else none
    .ok (response, timeLeft)

/-- The per-answer loop of `responseService.SubmitAnswers`
(response_service.go, lines 134-170): unknown question ids are silently
skipped (`continue`); a validation failure returns that error immediately
(answers already upserted in earlier iterations stay persisted); a valid
answer is upserted and the loop continues. -/
def submitAnswersLoop (st : ServiceState) (survey : Survey) (responseID : Nat) :
    List SubmitAnswerRequest → ServiceState × Option String
  | [] => (st, none)
  | answerReq :: rest =>
      match survey.getQuestionByID answerReq.questionID with
      | none => submitAnswersLoop st survey responseID rest
      | some question =>
          let answer := mkAnswer responseID answerReq
          match answer.validateAnswer question with
          | some err => (st, some err)
          | none =>
              let st := { st with response :=
                { st.response with answers := upsertAnswer st.response.answers answer } }
              submitAnswersLoop st survey responseID rest

/-- `responseService.SubmitAnswers` (response_service.go, lines 110-173):
ownership and activity checks on the loaded response, then the per-answer
loop over the questions of the survey. -/
def submitAnswers (st : ServiceState) (userID responseID : Nat)
    (answers : List SubmitAnswerRequest) : ServiceState × Option String :=
  match getResponseByID st responseID with
  | none => (st, some "record not found")
  | some response =>
      if response.userID ≠ userID then (st, some "unauthorized")
      else if response.status ≠ ResponseStatus.started then (st, some "response is not active")
      else
        match getSurveyByID st response.surveyID with
        | none => (st, some "record not found")
        | some survey => submitAnswersLoop st survey responseID answers

/-- `responseService.UpdateAnswer` (response_service.go, lines 338-376):
ownership and activity checks, then a direct upsert of the new answer —
the Go method resolves no question and runs no validation. -/
def updateAnswer (st : ServiceState) (userID responseID questionID : Nat)
    (req : UpdateAnswerRequest) : ServiceState × Option String :=
  match getResponseByID st responseID with
  | none => (st, some "record not found")
  | some response =>
      if response.userID ≠ userID then (st, some "unauthorized")
      else if response.status ≠ ResponseStatus.started then (st, some "response is not active")
      else
        let answer : Answer :=
          { responseID := responseID,
            questionID := questionID,
            answerText := extractAnswerText req.answer,
            answerValue := req.answer,
            timeSpent := req.timeSpent,
            isSkipped := req.isSkipped }
        ({ st with response :=
            { st.response with answers := upsertAnswer st.response.answers answer } }, none)

/-- Modelled from the spec: `rewardRepo.ProcessReward(pool, transaction)` —
the settlement unit of work (§4.4, §9): it applies the pool-model debit
`RewardPool.ProcessReward` and records the transaction; on a debit error
nothing is persisted. -/
def rewardRepoProcessReward (st : ServiceState) (pool : RewardPool)
    (t : RewardTransaction) : ServiceState × Option String :=
  match pool.processReward with
  | (_, some err) => (st, some err)
  | (pool2, none) =>
      ({ st with pool := pool2, transactions := st.transactions ++ [t] }, none)

/-- `responseService.processRewards` (response_service.go, lines 486-528):
pool lookup, `CanProcessReward` gate, quality-scaled reward and XP
computation, transaction creation, pool debit and balance credit.
Returns the service state after the call and `(finalReward, xpEarned)` on
success. -/
def processRewards (st : ServiceState) (response : Response) (survey : Survey) :
    ServiceState × Except String (GoFloat × Int) :=
  match getPoolBySurveyID st survey.id with
  | none => (st, .error "record not found")
  | some pool =>
      if !pool.canProcessReward then (st, .error "insufficient reward pool")
      else
        let baseReward := survey.rewardPerResponse
        let qualityMultiplier := response.qualityScore.div (.fin 5)
        let finalReward := baseReward.mul qualityMultiplier
        let xpEarned : Int :=
          (((GoFloat.fin ((survey.estimatedDuration : ℚ))).mul (.fin 10)).mul qualityMultiplier).toGoInt
        let transaction : RewardTransaction :=
          { userID := response.userID, surveyID := survey.id,
            responseID := some response.id, poolID := some pool.id,
            type := TransactionType.reward, amount := finalReward,
            status := TransactionStatus.pending }
        match rewardRepoProcessReward st pool transaction with
        | (st2, some err) => (st2, .error err)
        | (st2, none) =>
            let st3 := { st2 with
              credits := updateBalance st2.credits response.userID finalReward (.fin ((xpEarned : ℚ))) }
            (st3, .ok (finalReward, xpEarned))

/-- `responseService.CompleteSurvey` (response_service.go, lines 175-242).
The local `response` variable follows the Go control flow: it is loaded
once at the start, so the answers submitted by the optional final batch
are not visible to the quality scorer, and the completed response is
persisted via `responseRepo.Update` *before* `processRewards` runs; a
settlement failure therefore returns an error with the completed response
already persisted.  `surveyRepository.UpdateStatistics` is a mock that
returns nil without touching any state (dto/auth file, survey_repository
section, lines 696-699), so it is a genuine no-op here. -/
def completeSurvey (st : ServiceState) (userID : Nat) (req : CompleteSurveyRequest)
    (now : Int) : ServiceState × Except String CompletionResponse :=
  match getResponseByID st req.responseID with
  | none => (st, .error "record not found")
  | some response =>
      if response.userID ≠ userID then (st, .error "unauthorized")
      else if response.status ≠ ResponseStatus.started then (st, .error "response is not active")
      else
        let step :=
          if req.answers.length > 0 then submitAnswers st userID req.responseID req.answers
          else (st, none)
        match step with
        | (_, some err) => (step.1, .error err)
        | (st1, none) =>
          match getSurveyByID st1 response.surveyID with
          | none => (st1, .error "record not found")
          | some survey =>
            let response := response.markAsCompleted now
            let response := { response with duration := req.duration }
            let response := { response with qualityScore := calculateQualityScore response survey }
            let st2 := updateResponse st1 response
            match processRewards st2 response survey with
            | (st3, .error e) => (st3, .error e)
            | (st3, .ok (rewardAmount, xpEarned)) =>
                let nft := generateNFTCertificate response survey
                (st3, .ok { responseID := response.id, status := response.status,
                            completedAt := now, duration := response.duration,
                            rewardEarned := rewardAmount, xpEarned := xpEarned,
                            nftCertificate := nft })

/-- One submitted answer resolves to a question of the survey and passes
validation (the loop of `SubmitAnswers` neither skips nor aborts on it). -/
def answerOkB (survey : Survey) (responseID : Nat) (r : SubmitAnswerRequest) : Bool :=
  match survey.getQuestionByID r.questionID with
  | some q => ((mkAnswer responseID r).validateAnswer q).isNone
  | none => false

/-- The answer list obtained by upserting, in order, the answers built
from a list of submitted requests (the effect of the valid prefix of a
`SubmitAnswers` batch). -/
def applyUpserts (responseID : Nat) (reqs : List SubmitAnswerRequest)
    (answers : List Answer) : List Answer :=
  reqs.foldl (fun acc r => upsertAnswer acc (mkAnswer responseID r)) answers

/-! ## Concrete sample data (used by witnesses and counterexamples) -/

/-- A text question with no constraints. -/
def sampleQText : Question :=
  { id := 1, type := QuestionType.text, required := false,
    minLength := none, maxLength := none, minValue := none, maxValue := none }

/-- A required text question. -/
def sampleQRequired : Question :=
  { id := 2, type := QuestionType.text, required := true,
    minLength := none, maxLength := none, minValue := none, maxValue := none }

/-- A scale question with both numeric bounds configured. -/
def sampleQScale : Question :=
  { id := 9, type := QuestionType.scale, required := false,
    minLength := none, maxLength := none,
    minValue := some (.fin 1), maxValue := some (.fin 10) }

/-- A rating question with both numeric bounds configured. -/
def sampleQRating : Question :=
  { id := 4, type := QuestionType.rating, required := false,
    minLength := none, maxLength := none,
    minValue := some (.fin 1), maxValue := some (.fin 5) }

/-- A published two-question survey. -/
def sampleSurvey : Survey :=
  { id := 1, creatorID := 9, status := SurveyStatus.published,
    maxResponses := 100, minResponses := 1, rewardPerResponse := .fin 50,
    startDate := none, endDate := none, estimatedDuration := 5,
    requireLogin := true, allowMultiple := false, responseCount := 0,
    questions := [sampleQText, sampleQRequired] }

/-- A survey with no questions at all. -/
def sampleSurveyNoQuestions : Survey :=
  { sampleSurvey with id := 2, questions := [] }

/-- A started response of user 3 on `sampleSurvey` with no answers yet. -/
def sampleResponse : Response :=
  { id := 7, surveyID := 1, userID := 3, status := ResponseStatus.started,
    startedAt := 0, completedAt := none, duration := 0,
    qualityScore := .fin 0, isValid := true, answers := [] }

/-- A healthy pool for `sampleSurvey`: 850 of 1000 tokens left at 50 per
response. -/
def samplePool : RewardPool :=
  { id := 2, surveyID := 1, totalAmount := .fin 1000,
    rewardPerResponse := .fin 50, maxResponses := 20, currentResponses := 3,
    paidOut := .fin 150, remainingAmount := .fin 850, isActive := true,
    contractAddress := none, txHash := none, blockNumber := none }

/-- The depleted pool of the spec scenario: `remaining_amount = 30`,
`reward_per_response = 50`, so `CanProcessReward` is false. -/
def depletedPool : RewardPool :=
  { id := 2, surveyID := 1, totalAmount := .fin 100,
    rewardPerResponse := .fin 50, maxResponses := 100, currentResponses := 1,
    paidOut := .fin 70, remainingAmount := .fin 30, isActive := true,
    contractAddress := none, txHash := none, blockNumber := none }

/-- Service state: started response, healthy pool. -/
def sampleState : ServiceState :=
  { response := sampleResponse, survey := sampleSurvey, pool := samplePool,
    transactions := [], credits := [] }

/-- Service state: started response, depleted pool (spec scenario). -/
def depletedState : ServiceState :=
  { sampleState with pool := depletedPool }

/-- Completion request for `sampleResponse` with no final answer batch. -/
def sampleCompleteReq : CompleteSurveyRequest :=
  { responseID := 7, answers := [], duration := 120 }

/-- A valid text answer for question 1. -/
def sampleSubmitOk : SubmitAnswerRequest :=
  { questionID := 1,
    answer := { type := "text", content := GoValue.str "hello",
                options := [], rating := none, scale := none, date := none },
    timeSpent := 10, isSkipped := false }

/-- A skipped answer for the required question 2 — `ValidateAnswer`
rejects it with "answer is required". -/
def sampleSubmitBad : SubmitAnswerRequest :=
  { questionID := 2,
    answer := { type := "text", content := GoValue.str "",
                options := [], rating := none, scale := none, date := none },
    timeSpent := 0, isSkipped := true }

/-- The update-answer request carrying the same payload as
`sampleSubmitBad`. -/
def sampleUpdateReq : UpdateAnswerRequest :=
  { answer := sampleSubmitBad.answer, timeSpent := 0, isSkipped := true }

/-- A scale answer whose value 99 sits in the `Scale` field (the `Rating`
field is nil), far outside the configured bounds [1, 10] of
`sampleQScale`. -/
def sampleScaleAnswer : Answer :=
  { responseID := 7, questionID := 9, answerText := "99",
    answerValue := { type := "scale", content := GoValue.null, options := [],
                     rating := none, scale := some 99, date := none },
    timeSpent := 5, isSkipped := false }

/-- A rating answer with value 7 in the `Rating` field, above the
configured maximum 5 of `sampleQRating`. -/
def sampleRatingAnswer : Answer :=
  { responseID := 7, questionID := 4, answerText := "7",
    answerValue := { type := "rating", content := GoValue.null, options := [],
                     rating := some 7, scale := none, date := none },
    timeSpent := 5, isSkipped := false }

/-- A start-survey request with empty client metadata. -/
def sampleStartReq : StartSurveyRequest :=
  { surveyID := 1, timezone := "", language := "", ipAddress := "", userAgent := "" }

/-! ## Basic lemmas about the float model -/

@[simp] theorem GoFloat.add_fin (a b : ℚ) :
    GoFloat.add (.fin a) (.fin b) = .fin (a + b) := rfl

@[simp] theorem GoFloat.sub_fin (a b : ℚ) :
    GoFloat.sub (.fin a) (.fin b) = .fin (a - b) := by
  simp [GoFloat.sub, GoFloat.add, GoFloat.neg, sub_eq_add_neg]

@[simp] theorem GoFloat.mul_fin (a b : ℚ) :
    GoFloat.mul (.fin a) (.fin b) = .fin (a * b) := rfl

@[simp] theorem GoFloat.blt_fin (a b : ℚ) :
    GoFloat.blt (.fin a) (.fin b) = decide (a < b) := rfl

@[simp] theorem GoFloat.ble_fin (a b : ℚ) :
    GoFloat.ble (.fin a) (.fin b) = decide (a ≤ b) := rfl

theorem GoFloat.div_fin (a b : ℚ) (hb : b ≠ 0) :
    GoFloat.div (.fin a) (.fin b) = .fin (a / b) := by
  simp [GoFloat.div, hb]

@[simp] theorem GoFloat.isFinBetween_fin (q lo hi : ℚ) :
    GoFloat.isFinBetween (.fin q) lo hi = (decide (lo ≤ q) && decide (q ≤ hi)) := rfl

/-! ## Shared helper lemmas -/

/-- Shape of a successful `RewardPool.ProcessReward` call: no error, the
three mutated counters move by exactly one nominal reward, the remaining
fields persist, and the pool is deactivated exactly when capacity or funds
are exhausted after the debit. -/
theorem RewardPool.processReward_ok (rp : RewardPool) (hcan : rp.canProcessReward = true) :
    ∃ rp2, rp.processReward = (rp2, none) ∧
      rp2.currentResponses = rp.currentResponses + 1 ∧
      rp2.paidOut = rp.paidOut.add rp.rewardPerResponse ∧
      rp2.remainingAmount = rp.remainingAmount.sub rp.rewardPerResponse ∧
      rp2.totalAmount = rp.totalAmount ∧
      rp2.rewardPerResponse = rp.rewardPerResponse ∧
      rp2.maxResponses = rp.maxResponses ∧
      rp2.id = rp.id ∧
      rp2.surveyID = rp.surveyID ∧
      rp2.contractAddress = rp.contractAddress ∧
      rp2.txHash = rp.txHash ∧
      rp2.blockNumber = rp.blockNumber ∧
      (rp2.isActive = false ↔
        (rp2.currentResponses ≥ rp2.maxResponses ∨
          GoFloat.blt rp2.remainingAmount rp2.rewardPerResponse = true)) := by
  have hact : rp.isActive = true := by
    unfold RewardPool.canProcessReward RewardPool.isAvailable at hcan
    simp only [Bool.and_eq_true] at hcan
    exact hcan.1.1.1
  unfold RewardPool.processReward
  rw [hcan]
  simp only [Bool.not_true, Bool.false_eq_true, if_false]
  split
  case isTrue hc =>
    refine ⟨_, rfl, rfl, rfl, rfl, rfl, rfl, rfl, rfl, rfl, rfl, rfl, rfl, ?_⟩
    simp only [Bool.or_eq_true, decide_eq_true_eq] at hc
    simpa using hc
  case isFalse hc =>
    refine ⟨_, rfl, rfl, rfl, rfl, rfl, rfl, rfl, rfl, rfl, rfl, rfl, rfl, ?_⟩
    simp only [Bool.or_eq_true, decide_eq_true_eq] at hc
    push_neg at hc
    constructor
    · intro hfalse
      rw [hact] at hfalse
      exact absurd hfalse (by simp)
    · intro hor
      rcases hor with h | h
      · exact absurd h (by simpa using hc.1)
      · exact absurd h (by simpa using hc.2)

/-! ## C8 — completion certificate -/

/-- C8: the completion certificate is a deterministic, idempotent function
of the response: it equals `"NFT-CERT-{survey id}-{user id}-{response id}"`,
so any two calls on a response and survey carrying the same three ids
(whether during completion or when later reading the completed response)
produce the same identifier. -/
theorem C8_certificate_deterministic (r1 r2 : Response) (s1 s2 : Survey)
    (hs : s1.id = s2.id) (hu : r1.userID = r2.userID) (hr : r1.id = r2.id) :
    generateNFTCertificate r1 s1 =
      "NFT-CERT-" ++ toString s1.id ++ "-" ++ toString r1.userID ++ "-" ++ toString r1.id ∧
    generateNFTCertificate r1 s1 = generateNFTCertificate r2 s2 := by
  constructor
  · rfl
  · unfold generateNFTCertificate
    rw [hs, hu, hr]

/-- Witness for C8 at concrete inputs: the completion-time call (on
`sampleResponse` and `sampleSurvey`) and the read-time call (on the
completed copy of the response) yield the same concrete identifier. -/
theorem C8_certificate_deterministic_witness :
    generateNFTCertificate sampleResponse sampleSurvey =
      "NFT-CERT-" ++ toString sampleSurvey.id ++ "-" ++ toString sampleResponse.userID
        ++ "-" ++ toString sampleResponse.id ∧
    generateNFTCertificate sampleResponse sampleSurvey =
      generateNFTCertificate (sampleResponse.markAsCompleted 180) sampleSurvey :=
  C8_certificate_deterministic sampleResponse (sampleResponse.markAsCompleted 180)
    sampleSurvey sampleSurvey rfl rfl rfl

/-! ## C9 — the capacity branch of StartSurvey is dead code -/

/-- C9: every survey that passes the `IsActive()` precondition already has
`ResponseCount < MaxResponses` (IsActive checks exactly this), so the
standalone maximum-participants check in `StartSurvey` is unreachable and
the "survey has reached maximum participants" error is never returned —
capacity rejections surface as the survey-not-active failure. -/
theorem C9_capacity_branch_unreachable (s : Survey) (now : Int)
    (userID surveyID : Nat) (hasResponded : Bool) (req : StartSurveyRequest)
    (newID : Nat) (hact : s.isActive now = true) :
    s.responseCount < s.maxResponses ∧
    startSurvey s userID surveyID hasResponded req now newID ≠
      Except.error "survey has reached maximum participants" := by
  have hlt : s.responseCount < s.maxResponses := by
    unfold Survey.isActive at hact
    split_ifs at hact with h1 h2 h3 h4
    · exact lt_of_not_ge h4
  refine ⟨hlt, ?_⟩
  unfold startSurvey
  rw [hact]
  simp only [Bool.not_true, Bool.false_eq_true, if_false]
  split_ifs with h1 h2 h3 h4
  · intro h; exact absurd (Except.error.inj h) (by decide)
  · intro h; exact absurd (Except.error.inj h) (by decide)
  · exact absurd h3 (not_le_of_lt hlt)
  · intro h; exact Except.noConfusion h
  · intro h; exact Except.noConfusion h

/-- Witness for C9: a concrete active survey is under capacity and a
concrete start call does not produce the maximum-participants error. -/
theorem C9_capacity_branch_unreachable_witness :
    sampleSurvey.responseCount < sampleSurvey.maxResponses ∧
    startSurvey sampleSurvey 3 1 false sampleStartReq 0 7 ≠
      Except.error "survey has reached maximum participants" :=
  C9_capacity_branch_unreachable sampleSurvey 0 3 1 false sampleStartReq 7 (by decide)

/-! ## C10 — ProcessReward frame conditions -/

/-- C10: `RewardPool.ProcessReward` mutates only `current_responses`,
`paid_out`, `remaining_amount` and `is_active`: the pool id, survey id,
`total_amount`, `reward_per_response`, `max_responses` and the blockchain
bookkeeping fields are unchanged by every call; and when
`CanProcessReward` is false the call returns the error with the whole
pool unchanged. -/
theorem C10_processReward_frame (rp : RewardPool) :
    (rp.processReward).1.id = rp.id ∧
    (rp.processReward).1.surveyID = rp.surveyID ∧
    (rp.processReward).1.totalAmount = rp.totalAmount ∧
    (rp.processReward).1.rewardPerResponse = rp.rewardPerResponse ∧
    (rp.processReward).1.maxResponses = rp.maxResponses ∧
    (rp.processReward).1.contractAddress = rp.contractAddress ∧
    (rp.processReward).1.txHash = rp.txHash ∧
    (rp.processReward).1.blockNumber = rp.blockNumber ∧
    (rp.canProcessReward = false →
      rp.processReward =
        (rp, some "cannot process reward: insufficient funds or pool inactive")) := by
  by_cases hcan : rp.canProcessReward = true
  · obtain ⟨rp2, heq, _, _, _, _, _, hmax, hid, hsid, hca, htx, hbn, _⟩ :=
      rp.processReward_ok hcan
    rw [heq]
    exact ⟨hid, hsid, ‹_›, ‹_›, hmax, hca, htx, hbn,
      fun hfalse => absurd (hcan.symm.trans hfalse) (by simp)⟩
  · simp only [Bool.not_eq_true] at hcan
    have heq : rp.processReward =
        (rp, some "cannot process reward: insufficient funds or pool inactive") := by
      unfold RewardPool.processReward
      rw [hcan]
      rfl
    rw [heq]
    exact ⟨rfl, rfl, rfl, rfl, rfl, rfl, rfl, rfl, fun _ => rfl⟩

/-- Witness for C10: on a concrete pool that cannot pay (the depleted
pool of the spec scenario) the call errors and the pool is unchanged; the
frame fields are unchanged as well. -/
theorem C10_processReward_frame_witness :
    (depletedPool.processReward).1.totalAmount = depletedPool.totalAmount ∧
    depletedPool.processReward =
      (depletedPool, some "cannot process reward: insufficient funds or pool inactive") :=
  ⟨(C10_processReward_frame depletedPool).2.2.1,
   (C10_processReward_frame depletedPool).2.2.2.2.2.2.2.2 (by decide)⟩

/-! ## C2 — pool invariant preserved by settlement -/

/-- C2: every successful `RewardPool.ProcessReward` preserves
`remaining_amount = total_amount - paid_out` (assuming it held before),
keeps `paid_out ≤ total_amount`, and deactivates the pool once
`current_responses ≥ max_responses` or `remaining_amount <
reward_per_response` after the debit. -/
theorem C2_pool_invariant (rp : RewardPool) (T P R r : ℚ)
    (hT : rp.totalAmount = .fin T) (hP : rp.paidOut = .fin P)
    (hR : rp.remainingAmount = .fin R) (hr : rp.rewardPerResponse = .fin r)
    (hinv : R = T - P) (hcan : rp.canProcessReward = true) :
    (rp.processReward).2 = none ∧
    (rp.processReward).1.paidOut = .fin (P + r) ∧
    (rp.processReward).1.remainingAmount = .fin (T - (P + r)) ∧
    (rp.processReward).1.totalAmount = .fin T ∧
    P + r ≤ T ∧
    ((rp.processReward).1.currentResponses ≥ (rp.processReward).1.maxResponses ∨
        GoFloat.blt (rp.processReward).1.remainingAmount
          (rp.processReward).1.rewardPerResponse = true →
      (rp.processReward).1.isActive = false) := by
  have hle : r ≤ R := by
    unfold RewardPool.canProcessReward at hcan
    simp only [Bool.and_eq_true] at hcan
    have h2 := hcan.2
    rw [hr, hR] at h2
    simpa using h2
  obtain ⟨rp2, heq, _, hpo2, hre2, htot2, _, _, _, _, _, _, _, hiff⟩ :=
    rp.processReward_ok hcan
  rw [heq]
  dsimp only
  refine ⟨rfl, ?_, ?_, ?_, ?_, fun hor => hiff.mpr hor⟩
  · rw [hpo2, hP, hr]; simp
  · rw [hre2, hR, hr]
    simp only [GoFloat.sub_fin]
    congr 1
    rw [hinv]; ring
  · rw [htot2, hT]
  · have : r ≤ T - P := hinv ▸ hle
    linarith

/-- Witness for C2: the invariant step evaluated on the concrete healthy
pool (1000 total, 150 paid, 850 remaining, 50 per response). -/
theorem C2_pool_invariant_witness :
    (samplePool.processReward).2 = none ∧
    (samplePool.processReward).1.paidOut = .fin (150 + 50) ∧
    (samplePool.processReward).1.remainingAmount = .fin (1000 - (150 + 50)) ∧
    (samplePool.processReward).1.totalAmount = .fin 1000 ∧
    (150 : ℚ) + 50 ≤ 1000 ∧
    ((samplePool.processReward).1.currentResponses ≥ (samplePool.processReward).1.maxResponses ∨
        GoFloat.blt (samplePool.processReward).1.remainingAmount
          (samplePool.processReward).1.rewardPerResponse = true →
      (samplePool.processReward).1.isActive = false) :=
  C2_pool_invariant samplePool 1000 150 850 50 rfl rfl rfl rfl (by norm_num) (by decide)

/-! ## C3 — nominal debit, quality-scaled credit, and the discarded XP -/

/-- Complete effect description of a successful `processRewards` call:
nominal pool debit, quality-scaled transaction amount and `total_earned`
credit, the computed-and-returned XP figure, and the xp-independence of
the balance write. -/
theorem processRewards_success_effects (st : ServiceState) (response : Response)
    (survey : Survey) (q base po re : ℚ) (xpAlt : GoFloat)
    (hq : response.qualityScore = .fin q) (hq0 : 0 ≤ q) (hq5 : q ≤ 5)
    (hbase : survey.rewardPerResponse = .fin base)
    (hpoolr : st.pool.rewardPerResponse = .fin base)
    (hpo : st.pool.paidOut = .fin po) (hre : st.pool.remainingAmount = .fin re)
    (hed : 0 ≤ survey.estimatedDuration)
    (hsid : st.pool.surveyID = survey.id)
    (hcan : st.pool.canProcessReward = true) :
    (processRewards st response survey).2 =
      .ok (.fin (base * (q / 5)), ((survey.estimatedDuration : ℚ) * 10 * (q / 5)).floor) ∧
    (processRewards st response survey).1.pool.currentResponses =
      st.pool.currentResponses + 1 ∧
    (processRewards st response survey).1.pool.paidOut = .fin (po + base) ∧
    (processRewards st response survey).1.pool.remainingAmount = .fin (re - base) ∧
    (processRewards st response survey).1.transactions = st.transactions ++
      [{ userID := response.userID, surveyID := survey.id,
         responseID := some response.id, poolID := some st.pool.id,
         type := TransactionType.reward, amount := .fin (base * (q / 5)),
         status := TransactionStatus.pending }] ∧
    (processRewards st response survey).1.credits = st.credits ++
      [{ userID := response.userID, totalEarnedDelta := .fin (base * (q / 5)) }] ∧
    updateBalance st.credits response.userID (.fin (base * (q / 5)))
        (.fin ((((survey.estimatedDuration : ℚ) * 10 * (q / 5)).floor : ℚ))) =
      updateBalance st.credits response.userID (.fin (base * (q / 5))) xpAlt := by
  have hmul : response.qualityScore.div (.fin 5) = .fin (q / 5) := by
    rw [hq]; exact GoFloat.div_fin q 5 (by norm_num)
  have hfr : survey.rewardPerResponse.mul (response.qualityScore.div (.fin 5)) =
      .fin (base * (q / 5)) := by
    rw [hbase, hmul, GoFloat.mul_fin]
  have hxpf : ((GoFloat.fin ((survey.estimatedDuration : ℚ))).mul (.fin 10)).mul
      (response.qualityScore.div (.fin 5)) =
      .fin ((survey.estimatedDuration : ℚ) * 10 * (q / 5)) := by
    rw [hmul, GoFloat.mul_fin, GoFloat.mul_fin]
  have hnn : (0 : ℚ) ≤ (survey.estimatedDuration : ℚ) * 10 * (q / 5) := by
    have h1 : (0 : ℚ) ≤ (survey.estimatedDuration : ℚ) := by exact_mod_cast hed
    have h2 : (0 : ℚ) ≤ q / 5 := div_nonneg hq0 (by norm_num)
    have h3 : (0 : ℚ) ≤ (survey.estimatedDuration : ℚ) * 10 := by linarith
    exact mul_nonneg h3 h2
  have hxp : (((GoFloat.fin ((survey.estimatedDuration : ℚ))).mul (.fin 10)).mul
      (response.qualityScore.div (.fin 5))).toGoInt =
      ((survey.estimatedDuration : ℚ) * 10 * (q / 5)).floor := by
    rw [hxpf]
    unfold GoFloat.toGoInt
    dsimp only
    rw [if_pos hnn]
  have hpool : getPoolBySurveyID st survey.id = some st.pool := by
    simp [getPoolBySurveyID, hsid]
  obtain ⟨rp2, heq, hcur, hpo2, hre2, _, _, _, _, _, _, _, _, _⟩ :=
    st.pool.processReward_ok hcan
  unfold processRewards
  rw [hpool]
  dsimp only
  rw [hcan]
  simp only [Bool.not_true, Bool.false_eq_true, if_false]
  unfold rewardRepoProcessReward
  rw [heq]
  dsimp only
  rw [hfr, hxp]
  refine ⟨rfl, ?_, ?_, ?_, rfl, rfl, rfl⟩
  · dsimp only; rw [hcur]
  · dsimp only; rw [hpo2, hpo, hpoolr]; simp
  · dsimp only; rw [hre2, hre, hpoolr]; simp

/-- C3 counterexample: at a concrete settlement (quality-4 response on
the healthy sample pool) the call computes and returns
`xpEarned = floor(5 * 10 * (4/5)) = 40`, but the only user-balance write
it performs credits `total_earned` by the 40 tokens and carries no XP —
and the embedded `UpdateBalance` produces the very same write whatever xp
value it is handed, because the Go implementation (dto/auth file, lines
596-603) leaves `xp` out of its update map.  So no XP equal to
`floor(estimated_duration * 10 * (q/5))` — nor any XP at all — is
credited, refuting the XP-credit part of the claim. -/
theorem C3_counterexample :
    (processRewards sampleState { sampleResponse with qualityScore := GoFloat.fin 4 }
        sampleSurvey).2 = Except.ok (GoFloat.fin 40, (40 : Int)) ∧
    (processRewards sampleState { sampleResponse with qualityScore := GoFloat.fin 4 }
        sampleSurvey).1.credits = [{ userID := 3, totalEarnedDelta := GoFloat.fin 40 }] ∧
    updateBalance sampleState.credits 3 (GoFloat.fin 40) (GoFloat.fin 40) =
      updateBalance sampleState.credits 3 (GoFloat.fin 40) (GoFloat.fin 0) := by
  have h := processRewards_success_effects sampleState
    { sampleResponse with qualityScore := GoFloat.fin 4 } sampleSurvey
    4 50 150 850 GoFloat.nan rfl (by norm_num) (by norm_num) rfl rfl rfl rfl
    (by decide) rfl (by decide)
  have e1 : (50 * ((4 : ℚ) / 5)) = 40 := by norm_num
  have e2 : ((sampleSurvey.estimatedDuration : ℚ) * 10 * ((4 : ℚ) / 5)).floor = (40 : Int) := by
    have hv : ((sampleSurvey.estimatedDuration : ℚ) * 10 * ((4 : ℚ) / 5)) = 40 := by
      norm_num [sampleSurvey]
    rw [hv]
    rfl
  refine ⟨?_, ?_, rfl⟩
  · rw [h.1, e1, e2]
  · have hc := h.2.2.2.2.2.1
    rw [e1] at hc
    rw [hc]
    rfl

/-- C3 (amended): for a completed response with (finite) quality score
`q`, settlement debits the pool by the nominal per-response amount
(`current_responses + 1`, `paid_out + reward_per_response`,
`remaining_amount - reward_per_response`), and the recorded
RewardTransaction amount and the user `total_earned` credit both equal
`reward_per_response * (q / 5)`.  The XP figure
`floor(estimated_duration_minutes * 10 * (q / 5))` is only computed,
returned to the caller and passed to `UpdateBalance`, which discards it:
the sole balance write is the earned credit, identical for every xp
argument, and no XP is ever credited. -/
theorem C3_settlement_amounts_no_xp_credit (st : ServiceState) (response : Response)
    (survey : Survey) (q base po re : ℚ) (xpAlt : GoFloat)
    (hq : response.qualityScore = .fin q) (hq0 : 0 ≤ q) (hq5 : q ≤ 5)
    (hbase : survey.rewardPerResponse = .fin base)
    (hpoolr : st.pool.rewardPerResponse = .fin base)
    (hpo : st.pool.paidOut = .fin po) (hre : st.pool.remainingAmount = .fin re)
    (hed : 0 ≤ survey.estimatedDuration)
    (hsid : st.pool.surveyID = survey.id)
    (hcan : st.pool.canProcessReward = true) :
    (processRewards st response survey).2 =
      .ok (.fin (base * (q / 5)), ((survey.estimatedDuration : ℚ) * 10 * (q / 5)).floor) ∧
    (processRewards st response survey).1.pool.currentResponses =
      st.pool.currentResponses + 1 ∧
    (processRewards st response survey).1.pool.paidOut = .fin (po + base) ∧
    (processRewards st response survey).1.pool.remainingAmount = .fin (re - base) ∧
    (processRewards st response survey).1.transactions = st.transactions ++
      [{ userID := response.userID, surveyID := survey.id,
         responseID := some response.id, poolID := some st.pool.id,
         type := TransactionType.reward, amount := .fin (base * (q / 5)),
         status := TransactionStatus.pending }] ∧
    (processRewards st response survey).1.credits = st.credits ++
      [{ userID := response.userID, totalEarnedDelta := .fin (base * (q / 5)) }] ∧
    updateBalance st.credits response.userID (.fin (base * (q / 5)))
        (.fin ((((survey.estimatedDuration : ℚ) * 10 * (q / 5)).floor : ℚ))) =
      updateBalance st.credits response.userID (.fin (base * (q / 5))) xpAlt :=
  processRewards_success_effects st response survey q base po re xpAlt
    hq hq0 hq5 hbase hpoolr hpo hre hed hsid hcan

/-- Witness for the amended C3 at the concrete quality-4 settlement: the
pool is debited the nominal 50, the transaction and the `total_earned`
credit carry 50 * (4/5) = 40, and the balance write is the same even if
the xp argument were NaN. -/
theorem C3_settlement_no_xp_credit_witness :
    (processRewards sampleState { sampleResponse with qualityScore := GoFloat.fin 4 }
        sampleSurvey).2 =
      Except.ok (GoFloat.fin (50 * ((4 : ℚ) / 5)),
        ((sampleSurvey.estimatedDuration : ℚ) * 10 * ((4 : ℚ) / 5)).floor) ∧
    (processRewards sampleState { sampleResponse with qualityScore := GoFloat.fin 4 }
        sampleSurvey).1.pool.currentResponses = sampleState.pool.currentResponses + 1 ∧
    (processRewards sampleState { sampleResponse with qualityScore := GoFloat.fin 4 }
        sampleSurvey).1.pool.paidOut = GoFloat.fin (150 + 50) ∧
    (processRewards sampleState { sampleResponse with qualityScore := GoFloat.fin 4 }
        sampleSurvey).1.pool.remainingAmount = GoFloat.fin (850 - 50) ∧
    (processRewards sampleState { sampleResponse with qualityScore := GoFloat.fin 4 }
        sampleSurvey).1.transactions = sampleState.transactions ++
      [{ userID := ({ sampleResponse with qualityScore := GoFloat.fin 4 } : Response).userID,
         surveyID := sampleSurvey.id,
         responseID := some ({ sampleResponse with qualityScore := GoFloat.fin 4 } : Response).id,
         poolID := some sampleState.pool.id,
         type := TransactionType.reward, amount := GoFloat.fin (50 * ((4 : ℚ) / 5)),
         status := TransactionStatus.pending }] ∧
    (processRewards sampleState { sampleResponse with qualityScore := GoFloat.fin 4 }
        sampleSurvey).1.credits = sampleState.credits ++
      [{ userID := ({ sampleResponse with qualityScore := GoFloat.fin 4 } : Response).userID,
         totalEarnedDelta := GoFloat.fin (50 * ((4 : ℚ) / 5)) }] ∧
    updateBalance sampleState.credits
        ({ sampleResponse with qualityScore := GoFloat.fin 4 } : Response).userID
        (GoFloat.fin (50 * ((4 : ℚ) / 5)))
        (GoFloat.fin
          ((((sampleSurvey.estimatedDuration : ℚ) * 10 * ((4 : ℚ) / 5)).floor : ℚ))) =
      updateBalance sampleState.credits
        ({ sampleResponse with qualityScore := GoFloat.fin 4 } : Response).userID
        (GoFloat.fin (50 * ((4 : ℚ) / 5))) GoFloat.nan :=
  C3_settlement_amounts_no_xp_credit sampleState
    { sampleResponse with qualityScore := GoFloat.fin 4 } sampleSurvey
    4 50 150 850 GoFloat.nan rfl (by norm_num) (by norm_num) rfl rfl rfl rfl
    (by decide) rfl (by decide)

/-! ## C1 — completion is not atomic with settlement -/

/-- C1 counterexample: with the spec scenario pool
(`remaining_amount = 30 < 50 = reward_per_response`) and a started
response owned by the caller, `CompleteSurvey` does fail with the
insufficient-pool error, but the persisted response does NOT remain
`started`: it has been updated to `completed` with a completed-at stamp
before settlement was attempted — refuting the claimed atomicity. -/
theorem C1_counterexample :
    (completeSurvey depletedState 3 sampleCompleteReq 180).2 =
      Except.error "insufficient reward pool" ∧
    (completeSurvey depletedState 3 sampleCompleteReq 180).1.response.status =
      ResponseStatus.completed ∧
    (completeSurvey depletedState 3 sampleCompleteReq 180).1.response.completedAt =
      some 180 :=
  ⟨rfl, rfl, rfl⟩

/-- C1 (amended): when settlement cannot proceed
(`CanProcessReward` false), a completion call with no final answer batch
fails with the insufficient-pool error and performs no settlement (pool,
transactions and credits unchanged), but the response has already been
persisted as `completed` — status `completed`, completed-at stamped with
the call time and the client-supplied duration stored — so the response
does not remain `started` and is not retryable. -/
theorem C1_completion_persisted_despite_settlement_failure
    (st : ServiceState) (userID : Nat) (req : CompleteSurveyRequest) (now : Int)
    (hid : st.response.id = req.responseID)
    (hown : st.response.userID = userID)
    (hstat : st.response.status = ResponseStatus.started)
    (hempty : req.answers = [])
    (hsid : st.survey.id = st.response.surveyID)
    (hpool : st.pool.surveyID = st.survey.id)
    (hcant : st.pool.canProcessReward = false) :
    (completeSurvey st userID req now).2 = Except.error "insufficient reward pool" ∧
    (completeSurvey st userID req now).1.response.status = ResponseStatus.completed ∧
    (completeSurvey st userID req now).1.response.completedAt = some now ∧
    (completeSurvey st userID req now).1.response.duration = req.duration ∧
    (completeSurvey st userID req now).1.pool = st.pool ∧
    (completeSurvey st userID req now).1.transactions = st.transactions ∧
    (completeSurvey st userID req now).1.credits = st.credits := by
  have h1 : getResponseByID st req.responseID = some st.response := by
    simp [getResponseByID, hid]
  have h2 : getSurveyByID st st.response.surveyID = some st.survey := by
    simp [getSurveyByID, hsid]
  have hfail : ∀ (st2 : ServiceState) (r : Response), st2.pool = st.pool →
      processRewards st2 r st.survey = (st2, Except.error "insufficient reward pool") := by
    intro st2 r hp
    unfold processRewards
    have hg : getPoolBySurveyID st2 st.survey.id = some st.pool := by
      simp [getPoolBySurveyID, hp, hpool]
    rw [hg]
    dsimp only
    rw [hcant]
    simp
  unfold completeSurvey
  rw [h1]
  dsimp only
  rw [hown, hstat, hempty]
  simp only [ne_eq, not_true_eq_false, if_false, List.length_nil, gt_iff_lt,
    lt_self_iff_false, reduceIte]
  rw [h2]
  dsimp only
  rw [hfail _ _ (by simp [updateResponse])]
  refine ⟨rfl, ?_, ?_, ?_, rfl, rfl, rfl⟩ <;>
    simp [updateResponse, Response.markAsCompleted]

/-- Witness for the amended C1 at the concrete spec-scenario state. -/
theorem C1_completion_persisted_witness :
    (completeSurvey depletedState 3 sampleCompleteReq 180).2 =
      Except.error "insufficient reward pool" ∧
    (completeSurvey depletedState 3 sampleCompleteReq 180).1.response.status =
      ResponseStatus.completed ∧
    (completeSurvey depletedState 3 sampleCompleteReq 180).1.response.completedAt =
      some 180 ∧
    (completeSurvey depletedState 3 sampleCompleteReq 180).1.response.duration =
      sampleCompleteReq.duration ∧
    (completeSurvey depletedState 3 sampleCompleteReq 180).1.pool = depletedState.pool ∧
    (completeSurvey depletedState 3 sampleCompleteReq 180).1.transactions =
      depletedState.transactions ∧
    (completeSurvey depletedState 3 sampleCompleteReq 180).1.credits =
      depletedState.credits :=
  C1_completion_persisted_despite_settlement_failure depletedState 3 sampleCompleteReq 180
    rfl rfl rfl rfl rfl rfl (by decide)

/-! ## C4 — a failing batch answer aborts the call but earlier upserts persist -/

/-- C4 counterexample: a two-answer batch whose second answer fails
validation returns that validation error, but the first (valid) answer of
the same batch has already been persisted — refuting "no answer from that
batch (including valid ones appearing earlier in the batch) is
persisted". -/
theorem C4_counterexample :
    (submitAnswers sampleState 3 7 [sampleSubmitOk, sampleSubmitBad]).2 =
      some "answer is required" ∧
    (submitAnswers sampleState 3 7 [sampleSubmitOk, sampleSubmitBad]).1.response.answers =
      [mkAnswer 7 sampleSubmitOk] :=
  ⟨rfl, rfl⟩

/-- The `SubmitAnswers` loop on `good ++ bad :: rest`, where every request
in `good` resolves and validates and `bad` resolves but fails validation:
it returns the validation error of `bad` with exactly the `good` prefix
upserted (the failing answer and everything after it untouched). -/
theorem submitAnswersLoop_aborts (survey : Survey) (responseID : Nat)
    (bad : SubmitAnswerRequest) (qb : Question) (err : String)
    (rest : List SubmitAnswerRequest)
    (hbq : survey.getQuestionByID bad.questionID = some qb)
    (hbv : (mkAnswer responseID bad).validateAnswer qb = some err) :
    ∀ (good : List SubmitAnswerRequest) (st : ServiceState),
      good.all (answerOkB survey responseID) = true →
      submitAnswersLoop st survey responseID (good ++ bad :: rest) =
        ({ st with response :=
           { st.response with answers := applyUpserts responseID good st.response.answers } },
         some err) := by
  intro good
  induction good with
  | nil =>
      intro st _
      simp only [List.nil_append, applyUpserts, List.foldl_nil]
      unfold submitAnswersLoop
      rw [hbq]
      dsimp only
      rw [hbv]
  | cons r rs ih =>
      intro st hall
      simp only [List.all_cons, Bool.and_eq_true] at hall
      obtain ⟨h1, h2⟩ := hall
      unfold answerOkB at h1
      cases hfq : survey.getQuestionByID r.questionID with
      | none => rw [hfq] at h1; exact absurd h1 (by simp)
      | some q =>
          rw [hfq] at h1
          dsimp only at h1
          rw [Option.isNone_iff_eq_none] at h1
          simp only [List.cons_append]
          unfold submitAnswersLoop
          rw [hfq]
          dsimp only
          rw [h1]
          dsimp only
          rw [ih _ h2]
          simp only [applyUpserts, List.foldl_cons]

/-- C4 (amended): when a batch contains an answer that resolves to a
question but fails validation, and every earlier answer in the batch is
valid, the call aborts at the failing answer and surfaces its validation
error — but the valid answers earlier in the batch have already been
upserted and stay persisted; only the failing answer and those after it
are not persisted. -/
theorem C4_batch_aborts_midway (st : ServiceState)
    (userID responseID : Nat) (good : List SubmitAnswerRequest)
    (bad : SubmitAnswerRequest) (rest : List SubmitAnswerRequest)
    (qb : Question) (err : String)
    (hid : st.response.id = responseID)
    (hown : st.response.userID = userID)
    (hstat : st.response.status = ResponseStatus.started)
    (hsid : st.survey.id = st.response.surveyID)
    (hgood : good.all (answerOkB st.survey responseID) = true)
    (hbq : st.survey.getQuestionByID bad.questionID = some qb)
    (hbv : (mkAnswer responseID bad).validateAnswer qb = some err) :
    (submitAnswers st userID responseID (good ++ bad :: rest)).2 = some err ∧
    (submitAnswers st userID responseID (good ++ bad :: rest)).1.response.answers =
      applyUpserts responseID good st.response.answers := by
  unfold submitAnswers
  rw [show getResponseByID st responseID = some st.response from by
    simp [getResponseByID, hid]]
  dsimp only
  rw [hown, hstat]
  simp only [ne_eq, not_true_eq_false, if_false, reduceIte]
  rw [show getSurveyByID st st.response.surveyID = some st.survey from by
    simp [getSurveyByID, hsid]]
  dsimp only
  rw [submitAnswersLoop_aborts st.survey responseID bad qb err rest hbq hbv good st hgood]
  exact ⟨rfl, rfl⟩

/-- Witness for the amended C4 at the concrete two-answer batch. -/
theorem C4_batch_aborts_witness :
    (submitAnswers sampleState 3 7 ([sampleSubmitOk] ++ sampleSubmitBad :: [])).2 =
      some "answer is required" ∧
    (submitAnswers sampleState 3 7 ([sampleSubmitOk] ++ sampleSubmitBad :: [])).1.response.answers =
      applyUpserts 7 [sampleSubmitOk] sampleState.response.answers :=
  C4_batch_aborts_midway sampleState 3 7 [sampleSubmitOk] sampleSubmitBad []
    sampleQRequired "answer is required" rfl rfl rfl rfl (by decide) (by decide) (by decide)

/-! ## C5 — quality score range and the missing division guard -/

/-- C5 counterexample: on a survey with no questions (and hence a response
with no answers, the combination the claim explicitly includes as
`total_questions = 0`), the completion-rate division is `0/0 = NaN`, both
clamp comparisons are false for NaN, and the score is NaN — not a value
in [0, 5].  There is also no guard skipping the pacing division at
`answered_count = 0`; the division happens and produces NaN here. -/
theorem C5_counterexample :
    (calculateQualityScore sampleResponse sampleSurveyNoQuestions).isFinBetween 0 5 = false ∧
    calculateQualityScore sampleResponse sampleSurveyNoQuestions = GoFloat.nan :=
  ⟨rfl, rfl⟩

/-- C5 (amended): whenever the survey has at least one question the score
is a finite value in [0, 5] (for every answer count, duration and skip
combination — the final clamps guarantee it); and with no answers the
score is exactly 0: the pacing step is not skipped at
`answered_count = 0` — its division by zero yields Inf or NaN, whose
`< 5` comparison is false, so the penalty is simply never applied. -/
theorem C5_quality_score_range (response : Response) (survey : Survey)
    (hq : survey.questions ≠ []) :
    (calculateQualityScore response survey).isFinBetween 0 5 = true ∧
    (response.answers = [] → calculateQualityScore response survey = .fin 0) := by
  have ht : ((survey.questions.length : ℚ)) ≠ 0 :=
    Nat.cast_ne_zero.mpr (fun h => hq (List.length_eq_zero.mp h))
  constructor
  · unfold calculateQualityScore
    dsimp only
    rw [GoFloat.div_fin _ _ ht]
    simp only [GoFloat.mul_fin]
    split_ifs <;>
      simp only [GoFloat.mul_fin, GoFloat.isFinBetween_fin, GoFloat.blt_fin,
        decide_eq_true_eq, not_lt, Bool.and_eq_true] at * <;>
      constructor <;> linarith
  · intro ha
    unfold calculateQualityScore
    rw [ha]
    dsimp only
    simp only [List.length_nil, Nat.cast_zero, List.filter_nil,
      lt_self_iff_false, if_false]
    rw [GoFloat.div_fin _ _ ht]
    simp only [zero_div, GoFloat.mul_fin, mul_zero]
    split_ifs <;> simp_all [GoFloat.blt] <;> linarith

/-- Witness for the amended C5: on the two-question sample survey with an
answerless started response, the score is finite, in range, and equal to
0. -/
theorem C5_quality_score_range_witness :
    (calculateQualityScore sampleResponse sampleSurvey).isFinBetween 0 5 = true ∧
    calculateQualityScore sampleResponse sampleSurvey = .fin 0 :=
  ⟨(C5_quality_score_range sampleResponse sampleSurvey (by decide)).1,
   (C5_quality_score_range sampleResponse sampleSurvey (by decide)).2 rfl⟩

/-! ## C6 — UpdateAnswer performs no validation -/

/-- C6 counterexample: the same skipped answer to the required question 2
that a one-element submit batch rejects with "answer is required" is
accepted and persisted by `UpdateAnswer` — the single-answer update runs
no validation at all. -/
theorem C6_counterexample :
    (updateAnswer sampleState 3 7 2 sampleUpdateReq).2 = none ∧
    (updateAnswer sampleState 3 7 2 sampleUpdateReq).1.response.answers =
      [{ responseID := 7, questionID := 2, answerText := "",
         answerValue := sampleUpdateReq.answer, timeSpent := 0, isSkipped := true }] ∧
    (submitAnswers sampleState 3 7 [sampleSubmitBad]).2 = some "answer is required" :=
  ⟨rfl, rfl, rfl⟩

/-- C6 (amended): `UpdateAnswer` applies the same ownership and activity
checks as `SubmitAnswers`, but it resolves no question and runs no Answer
Validator: for every started response owned by the caller it
unconditionally upserts the answer and succeeds, whatever constraints the
addressed question carries. -/
theorem C6_updateAnswer_skips_validation (st : ServiceState)
    (userID responseID questionID : Nat) (req : UpdateAnswerRequest)
    (hid : st.response.id = responseID)
    (hown : st.response.userID = userID)
    (hstat : st.response.status = ResponseStatus.started) :
    (updateAnswer st userID responseID questionID req).2 = none ∧
    (updateAnswer st userID responseID questionID req).1.response.answers =
      upsertAnswer st.response.answers
        { responseID := responseID, questionID := questionID,
          answerText := extractAnswerText req.answer, answerValue := req.answer,
          timeSpent := req.timeSpent, isSkipped := req.isSkipped } := by
  unfold updateAnswer
  rw [show getResponseByID st responseID = some st.response from by
    simp [getResponseByID, hid]]
  dsimp only
  rw [hown, hstat]
  simp only [ne_eq, not_true_eq_false, if_false, reduceIte]
  exact ⟨trivial, trivial⟩

/-- Witness for the amended C6 at the concrete skipped-required answer. -/
theorem C6_updateAnswer_skips_validation_witness :
    (updateAnswer sampleState 3 7 2 sampleUpdateReq).2 = none ∧
    (updateAnswer sampleState 3 7 2 sampleUpdateReq).1.response.answers =
      upsertAnswer sampleState.response.answers
        { responseID := 7, questionID := 2,
          answerText := extractAnswerText sampleUpdateReq.answer,
          answerValue := sampleUpdateReq.answer,
          timeSpent := sampleUpdateReq.timeSpent,
          isSkipped := sampleUpdateReq.isSkipped } :=
  C6_updateAnswer_skips_validation sampleState 3 7 2 sampleUpdateReq rfl rfl rfl

/-! ## C7 — the range check reads only the Rating field -/

/-- C7 counterexample: a scale question with both bounds configured
([1, 10]) and an answer whose value 99 sits in the `Scale` field (with a
nil `Rating`) passes validation — `ValidateAnswer` never consults the
`Scale` field, refuting "this holds ... for scale answers (value in the
scale field) alike". -/
theorem C7_counterexample :
    sampleScaleAnswer.validateAnswer sampleQScale = none :=
  rfl

/-- C7 (amended): for rating and scale questions the range check reads
only the `Rating` field of the answer value: when both bounds are
configured, an answer carrying `Rating = v` fails below/above exactly when
`v` falls outside `[min, max]` (and passes inside), while an answer with a
nil `Rating` field is never range-checked — whatever its `Scale` field
holds — and passes. -/
theorem C7_range_check_reads_only_rating (question : Question) (a b : Answer)
    (v : Int) (lo hi : ℚ)
    (htype : question.type = QuestionType.rating ∨ question.type = QuestionType.scale)
    (hmin : question.minValue = some (.fin lo))
    (hmax : question.maxValue = some (.fin hi))
    (hreqa : (question.required && (a.isSkipped || a.answerText == "")) = false)
    (hrata : a.answerValue.rating = some v)
    (hreqb : (question.required && (b.isSkipped || b.answerText == "")) = false)
    (hratb : b.answerValue.rating = none) :
    a.validateAnswer question =
      (if (v : ℚ) < lo then some "rating below minimum"
       else if hi < (v : ℚ) then some "rating above maximum" else none) ∧
    b.validateAnswer question = none := by
  constructor
  · unfold Answer.validateAnswer
    rw [hreqa]
    simp only [Bool.false_eq_true, if_false]
    rcases htype with h | h <;>
      rw [h] <;> dsimp only <;> rw [hrata] <;> dsimp only <;>
      rw [hmin, hmax] <;> simp [GoFloat.blt_fin]
  · unfold Answer.validateAnswer
    rw [hreqb]
    simp only [Bool.false_eq_true, if_false]
    rcases htype with h | h <;> rw [h] <;> dsimp only <;> rw [hratb]

/-- Witness for the amended C7: a rating-field value 7 above the
configured maximum 5 fails "rating above maximum", while the scale-field
answer (value 99, nil rating) passes the same question. -/
theorem C7_range_check_witness :
    sampleRatingAnswer.validateAnswer sampleQRating =
      (if ((7 : Int) : ℚ) < 1 then some "rating below minimum"
       else if (5 : ℚ) < ((7 : Int) : ℚ) then some "rating above maximum" else none) ∧
    sampleScaleAnswer.validateAnswer sampleQRating = none :=
  C7_range_check_reads_only_rating sampleQRating sampleRatingAnswer sampleScaleAnswer
    7 1 5 (Or.inl rfl) rfl rfl (by decide) rfl (by decide) rfl
